import Mathlib

/-!
Verification of the githubbot server (`src/server.ts`), a stateless
Telegram/GitHub webhook relay.  The TypeScript source is shallowly embedded:
strings are Lean `String`s (lists of characters), JavaScript numbers holding
chat identifiers are `Option Int` (`none` models `NaN`), thrown exceptions are
`Except String`, and the outbound Telegram API calls performed by a request are
collected in an explicit list, in the order they are issued.

The external `hmac` library (imported from `deno.land/x/hmac`) is not part of
this repository; its raw output `hmac("sha1", secret, data, "utf8", "base64")`
is abstracted as an arbitrary function `hmacB64 : String → String` held by the
bot, so every theorem below holds for any keyed hash.
-/

/-! ## JavaScript string primitives used by the source -/

/-- Decides whether `n` is a prefix of `h` (character lists). -/
def startsWithList : List Char → List Char → Bool
  | [], _ => true
  | _ :: _, [] => false
  | a :: n, b :: h => a == b && startsWithList n h

/-- Decides whether `n` occurs as a contiguous substring of `h`. -/
def hasSubList (n : List Char) : List Char → Bool
  | [] => n.isEmpty
  | a :: h => startsWithList n (a :: h) || hasSubList n h

/-- `strContains hay n` models JavaScript `hay.includes(n)` / "the text
contains `n`". -/
def strContains (hay n : String) : Bool :=
  hasSubList n.data hay.data

/-- Models JavaScript `String.prototype.replace` with a single-character
string pattern: only the first occurrence of `c` is replaced by `r`. -/
def replaceFirstChar (c r : Char) : List Char → List Char
  | [] => []
  | a :: as => if a == c then r :: as else a :: replaceFirstChar c r as

/-- Models JavaScript `s.replace(c, "")` for a single-character pattern:
only the first occurrence of `c` is removed. -/
def removeFirstChar (c : Char) : List Char → List Char
  | [] => []
  | a :: as => if a == c then as else a :: removeFirstChar c as

/-- Models JavaScript `String.prototype.replace` with a string pattern `pat`:
only the first occurrence of `pat` is replaced by `rep`.  (JavaScript replaces
an empty pattern by prepending `rep`; the source only uses nonempty patterns.) -/
def replaceFirstSub (pat rep : List Char) : List Char → List Char
  | [] => if pat.isEmpty then rep else []
  | a :: as =>
    if startsWithList pat (a :: as) then rep ++ (a :: as).drop pat.length
    else a :: replaceFirstSub pat rep as

/-- Models JavaScript `String.prototype.slice` on a character list: negative
indices count from the end, and both are clamped to the string bounds. -/
def jsSlice (l : List Char) (b e : Int) : List Char :=
  let len : Int := l.length
  let b2 : Int := if b < 0 then max (len + b) 0 else min b len
  let e2 : Int := if e < 0 then max (len + e) 0 else min e len
  if b2 < e2 then (l.take e2.toNat).drop b2.toNat else []

/-- Models JavaScript `String.prototype.split` with a single-character
separator (the source only splits on `"@"`, `"/"`, `"?"`, `"&"`, `"="`). -/
def splitOnChar (c : Char) : List Char → List (List Char)
  | [] => [[]]
  | a :: as =>
    let r := splitOnChar c as
    if a == c then [] :: r
    else
      match r with
      | [] => [[a]]
      | g :: gs => (a :: g) :: gs

/-- The whitespace characters skipped by JavaScript `parseInt` that can occur
in an HTTP path segment. -/
def isJsSpace (c : Char) : Bool :=
  c == ' ' || c == '\t' || c == '\n' || c == '\r'

/-- Decimal value of a digit run. -/
def digitsToNat (ds : List Char) : Nat :=
  ds.foldl (fun acc c => acc * 10 + (c.toNat - '0'.toNat)) 0

/-- The longest leading run of decimal digits, as a number; `none` when there
is no leading digit. -/
def parseDigitsNat (cs : List Char) : Option Nat :=
  let ds := cs.takeWhile Char.isDigit
  if ds.isEmpty then none else some (digitsToNat ds)

/-- `NaN`-aware JavaScript number holding a chat identifier: `none` is `NaN`. -/
abbrev JsNum := Option Int

/-- Models JavaScript `parseInt(s, 10)`: skip leading whitespace, read an
optional sign and then the longest digit prefix; `none` models `NaN`. -/
def jsParseInt (s : String) : JsNum :=
  let cs := s.data.dropWhile isJsSpace
  match cs with
  | '-' :: rest => (parseDigitsNat rest).map (fun n => -(n : Int))
  | '+' :: rest => (parseDigitsNat rest).map (fun n => (n : Int))
  | _ => (parseDigitsNat cs).map (fun n => (n : Int))

/-- Models JavaScript template interpolation `` `${chatID}` `` for the
chat-identifier number: decimal notation, `"NaN"` for `NaN`. -/
def jsNumToString : JsNum → String
  | none => "NaN"
  | some n => toString n

/-! ## Data model (the type declarations of `src/server.ts`) -/

/-- `Params` of `src/server.ts`. -/
structure Params where
  silent : Bool
deriving DecidableEq, Repr

/-- `GitHubUser` of `src/server.ts`. -/
structure GitHubUser where
  login : String
  avatar_url : String
  html_url : String
deriving DecidableEq, Repr

/-- `GitHubRepository` of `src/server.ts` (`private` is renamed
`isPrivate`: `private` is a Lean keyword). -/
structure GitHubRepository where
  name : String
  full_name : String
  isPrivate : Bool
  owner : GitHubUser
  html_url : String
  branches_url : String
  url : String
deriving DecidableEq, Repr

/-- `GitHubCommitAuthor` of `src/server.ts`. -/
structure GitHubCommitAuthor where
  name : String
  email : String
  username : String
deriving DecidableEq, Repr

/-- `GitHubCommit` of `src/server.ts`. -/
structure GitHubCommit where
  id : String
  message : String
  timestamp : String
  url : String
  author : GitHubCommitAuthor
  added : List String
  removed : List String
  modified : List String
deriving DecidableEq, Repr

/-- `GitHubEventPing` of `src/server.ts` (the unread opaque `hook` object is
omitted). -/
structure GitHubEventPing where
  zen : String
  hook_id : Int
deriving DecidableEq, Repr

/-- `GitHubEventPush` of `src/server.ts`. -/
structure GitHubEventPush where
  ref : String
  sender : GitHubUser
  repository : GitHubRepository
  commits : List GitHubCommit
  compare : String
  forced : Bool
deriving DecidableEq, Repr

/-- The JSON body of an inbound GitHub webhook call, as one of the two payload
shapes the formatters read. -/
inductive GitHubPayload where
  | ping (p : GitHubEventPing)
  | push (p : GitHubEventPush)
deriving DecidableEq, Repr

/-- `TelegramChat` of `src/server.ts` (the unread optional name fields are
omitted). -/
structure TelegramChat where
  id : Int
  type : String
deriving DecidableEq, Repr

/-- `TelegramMessageEntity` of `src/server.ts`. -/
structure TelegramMessageEntity where
  type : String
  offset : Int
  length : Int
deriving DecidableEq, Repr

/-- `TelegramMessage` of `src/server.ts` (the unread `from` field is
omitted). -/
structure TelegramMessage where
  message_id : Int
  date : Int
  chat : TelegramChat
  text : Option String
  entities : Option (List TelegramMessageEntity)
deriving DecidableEq, Repr

/-- `TelegramCallbackQuery` of `src/server.ts`. -/
structure TelegramCallbackQuery where
  id : Int
  message : Option TelegramMessage
  data : Option String
deriving DecidableEq, Repr

/-- `TelegramUpdate` of `src/server.ts`. -/
structure TelegramUpdate where
  update_id : Int
  message : Option TelegramMessage
  callback_query : Option TelegramCallbackQuery
deriving DecidableEq, Repr

/-- `TelegramInlineKeyboardButton` of `src/server.ts`. -/
structure TelegramInlineKeyboardButton where
  text : String
  callback_data : Option String
deriving DecidableEq, Repr

/-- An outbound call `telegramApi(action, body)` to the Telegram API, with the
body fields the source actually sends for that action. -/
inductive OutCall where
  | sendMessage (chat_id : JsNum) (disable_notification : Bool)
      (parse_mode : Option String) (text : String)
      (disable_web_page_preview : Option Bool)
  | editMessageText (chat_id : Int) (message_id : Int)
      (parse_mode : Option String) (text : String)
      (disable_web_page_preview : Option Bool)
  | setWebhook (url : String)
deriving DecidableEq, Repr

/-- An inline reply returned in the HTTP response body of `telegramUpdate`
(the `method` key of the returned object selects the constructor). -/
inductive InlineReply where
  | sendMessage (chat_id : Int) (parse_mode : Option String) (text : String)
      (disable_web_page_preview : Option Bool)
      (reply_markup : Option (List (List TelegramInlineKeyboardButton)))
  | answerCallbackQuery
deriving DecidableEq, Repr

/-- The `GitHubBot` instance: its immutable options, with the external HMAC
library call `hmac("sha1", options.secret, ·, "utf8", "base64")` (not part of
this repository) abstracted as the function `hmacB64`. -/
structure GitHubBot where
  hmacB64 : String → String
  telegramSecret : String
  baseURL : String

/-! ## Signer (`safeHMAC`, `generateWebhookURL`, `verifyWebhookURL`) -/

/-- The URL-safe mapping applied by `safeHMAC` to the base64 hash:
`hash.replace("+", "-").replace("/", "_").replace("=", "")`. -/
def urlSafeB64 (b : List Char) : List Char :=
  removeFirstChar '=' (replaceFirstChar '/' '_' (replaceFirstChar '+' '-' b))

/-- `GitHubBot.safeHMAC` (line 159): the keyed hash of `data`, base64, made
URL-safe by single `replace` calls. -/
def safeHMAC (bot : GitHubBot) (data : String) : String :=
  ⟨urlSafeB64 (bot.hmacB64 data).data⟩

/-- Character-list form of `GitHubBot.generateWebhookURL` (line 164):
`` `${baseURL}/github/${chatID}/${chatToken}` ``. -/
def generateWebhookURLL (bot : GitHubBot) (chatID : Int) : List Char :=
  bot.baseURL.data ++ "/github/".data ++ (toString chatID).data ++ "/".data
    ++ (safeHMAC bot (toString chatID)).data

/-- `GitHubBot.generateWebhookURL` (line 164). -/
def generateWebhookURL (bot : GitHubBot) (chatID : Int) : String :=
  ⟨generateWebhookURLL bot chatID⟩

/-- `GitHubBot.verifyWebhookURL` (line 169): recompute the token from the
presented chat identifier and compare. -/
def verifyWebhookURL (bot : GitHubBot) (chatID : JsNum) (chatToken : String) : Bool :=
  safeHMAC bot (jsNumToString chatID) == chatToken

/-! ## Event formatter (`githubEventFormatters`, `formatEventMessage`) -/

/-- The `ping` formatter (line 71). -/
def formatPingL (ping : GitHubEventPing) : List Char :=
  "You successfully set up GitHub notifications.\nGitHub Zen: ".data
    ++ ping.zen.data

/-- The `push` formatter (line 75), character-list form.  `branch` strips the
first `refs/heads/`; the branches URL has its `{/branch}` template segment
substituted (both via single-replacement `String.replace`). -/
def formatPushL (push : GitHubEventPush) : List Char :=
  let branch := replaceFirstSub "refs/heads/".data [] push.ref.data
  "[".data ++ push.sender.login.data ++ "](".data ++ push.sender.html_url.data
    ++ "): \n[".data ++ (toString push.commits.length).data ++ " new commit".data
    ++ (if push.commits.length == 1 then [] else "s".data)
    ++ "](".data ++ push.compare.data ++ ") ".data
    ++ (if push.forced then "force-".data else [])
    ++ "pushed to [`".data ++ branch ++ "`](".data
    ++ replaceFirstSub "\x7b/branch\x7d".data ("/".data ++ branch)
        push.repository.branches_url.data
    ++ ")\n".data
    ++ List.intercalate "\n".data
        (push.commits.map (fun commit =>
          "`".data ++ jsSlice commit.id.data 0 7 ++ "` ".data
            ++ commit.message.data ++ " - ".data ++ commit.author.username.data))
    ++ "\n[_".data ++ push.repository.full_name.data ++ "_](".data
    ++ push.repository.html_url.data ++ ")".data

/-- The body fields returned by `GitHubBot.formatEventMessage` (line 267). -/
structure FormattedEventMessage where
  parse_mode : String
  text : String
  disable_web_page_preview : Bool
deriving DecidableEq, Repr

/-- `GitHubBot.formatEventMessage` (line 267): unknown event types throw
`invalid: Event type "<event>" is not known`; a known event's formatter is
applied to the request body.  Applying the `push` formatter to a ping-shaped
body reads `push.ref.replace` off a missing field, which throws a `TypeError`
at runtime; applying the `ping` formatter to a push-shaped body interpolates
the missing `zen` field as the string `"undefined"`. -/
def formatEventMessage (event : String) (data : GitHubPayload) :
    Except String FormattedEventMessage :=
  if event = "ping" then
    match data with
    | .ping p => .ok ⟨"Markdown", ⟨formatPingL p⟩, true⟩
    | .push _ => .ok ⟨"Markdown",
        "You successfully set up GitHub notifications.\nGitHub Zen: undefined", true⟩
  else if event = "push" then
    match data with
    | .push p => .ok ⟨"Markdown", ⟨formatPushL p⟩, true⟩
    | .ping _ => .error "TypeError: Cannot read property 'replace' of undefined"
  else
    .error ("invalid: Event type \"" ++ event ++ "\" is not known")

/-! ## Bot core (`githubEvent`, `telegramUpdate`) -/

/-- `GitHubBot.githubEvent` (line 173): verify the binding, format the event,
then send the message.  The first component lists the outbound Telegram API
calls issued before returning or throwing; the second is the result (`.ok ()`
models the returned empty acknowledgment `{}`). -/
def githubEvent (bot : GitHubBot) (chatID : JsNum) (chatToken : String)
    (params : Params) (event : String) (data : GitHubPayload) :
    List OutCall × Except String Unit :=
  if ¬ verifyWebhookURL bot chatID chatToken then
    ([], .error "invalid: chatToken")
  else
    match formatEventMessage event data with
    | .error e => ([], .error e)
    | .ok m =>
      ([.sendMessage chatID params.silent (some m.parse_mode) m.text
          (some m.disable_web_page_preview)], .ok ())

/-- Text of `GitHubBot.formatSetupMessage` (line 279). -/
def formatSetupMessageTextL (bot : GitHubBot) (chatID : Int) : List Char :=
  "*Steps*\n\n1. Open \"Settings\" → \"Webhooks\" → \"Add Webhook\" in your GitHub repository.\n2. Paste the following URL as \"Payload URL\":\n".data
    ++ generateWebhookURLL bot chatID
    ++ "\n3. Under \"Content-Type\", choose \"application/json\"\n\nPress \"Add webhook\" and you're done. You can optionally choose specific events to send a message for.".data

/-- Text of `GitHubBot.formatSetupAdvancedMessage` (line 295): the setup text
plus the advanced-flags section. -/
def formatSetupAdvancedMessageTextL (bot : GitHubBot) (chatID : Int) : List Char :=
  formatSetupMessageTextL bot chatID
    ++ "\n\n*Advanced Flags*\n\nPass these flags as query parameters. For example: <url>?silent\n\n• `silent` - Makes events silent\n\n".data

/-- The message branch of `telegramUpdate` (lines 195-230).  A message without
entities (or with an empty entity list, `entities.length < 1`) is logged and
ignored (`.ok none`); reading `message.text.slice` off a message with entities
but no `text` field throws a `TypeError` at runtime; otherwise the first
entity's slice of the text, truncated at the first `@` (`split("@")[0]`),
selects the command. -/
def handleMessage (bot : GitHubBot) (message : TelegramMessage) :
    List OutCall × Except String (Option InlineReply) :=
  match message.entities with
  | none => ([], .ok none)
  | some [] => ([], .ok none)
  | some (e0 :: _) =>
    match message.text with
    | none => ([], .error "TypeError: Cannot read property 'slice' of undefined")
    | some text =>
      let firstEntity := jsSlice text.data e0.offset (e0.offset + e0.length)
      let command := firstEntity.takeWhile (fun ch => ch != '@')
      if command = "/setup".data then
        ([], .ok (some (.sendMessage message.chat.id (some "Markdown")
          ⟨formatSetupMessageTextL bot message.chat.id⟩ (some true)
          (some [[⟨"Advanced Setup", some "updateMessageSetupAdvanced"⟩]]))))
      else
        ([], .ok (some (.sendMessage message.chat.id none
          ⟨"Oops, I don't understand your command ".data ++ command⟩ none none)))

/-- The callback-query branch of `telegramUpdate` (lines 231-252).  A callback
query without an attached message or without data is logged and ignored; an
empty-string data payload is also ignored (it is falsy in JavaScript).  The
`updateMessageSetupAdvanced` action performs one outbound `editMessageText`
call (line 259); the acknowledgment `{method: "answerCallbackQuery"}` is
returned for every non-ignored action value. -/
def handleCallbackQuery (bot : GitHubBot) (cq : TelegramCallbackQuery) :
    List OutCall × Except String (Option InlineReply) :=
  match cq.message, cq.data with
  | some m, some d =>
    if d = "" then ([], .ok none)
    else
      ((if d = "updateMessageSetupAdvanced" then
          [OutCall.editMessageText m.chat.id m.message_id (some "Markdown")
            ⟨formatSetupAdvancedMessageTextL bot m.chat.id⟩ (some true)]
        else []),
       .ok (some .answerCallbackQuery))
  | _, _ => ([], .ok none)

/-- `GitHubBot.telegramUpdate` (line 189): authenticate the presented secret,
then dispatch on the update: a present `message` field is handled first (and
the function returns inside that branch), otherwise a present `callback_query`
is handled, otherwise the update is logged and ignored. -/
def telegramUpdate (bot : GitHubBot) (telegramSecret : String)
    (data : TelegramUpdate) : List OutCall × Except String (Option InlineReply) :=
  if telegramSecret ≠ bot.telegramSecret then
    ([], .error "invalid: telegramSecret")
  else
    match data.message with
    | some message => handleMessage bot message
    | none =>
      match data.callback_query with
      | some cq => handleCallbackQuery bot cq
      | none => ([], .ok none)

/-! ## Router (`route`, `serveGitHubWebhook`) and error mapping (`main`) -/

/-- The pathname of a request URL: everything before the first `?`
(`new URL(req.url, "https://localhost").pathname`). -/
def urlPathname (url : List Char) : List Char :=
  url.takeWhile (fun ch => ch != '?')

/-- The query string of a request URL: everything after the first `?`. -/
def urlQuery (url : List Char) : List Char :=
  (url.dropWhile (fun ch => ch != '?')).drop 1

/-- The nonempty slash-separated path segments:
`url.pathname.split("/").filter(part => part)`. -/
def routeParts (url : String) : List (List Char) :=
  (splitOnChar '/' (urlPathname url.data)).filter (fun p => ¬ p.isEmpty)

/-- `URLSearchParams.has("silent")` on the request's query string. -/
def queryHasSilent (url : String) : Bool :=
  ((splitOnChar '&' (urlQuery url.data)).map
    (fun kv => kv.takeWhile (fun ch => ch != '='))).contains "silent".data

/-- The dispatch decision of `route` (line 414). -/
inductive RouteResult where
  | telegramRoute (secret : String)
  | githubRoute (chatIDPart : String) (tokenPart : String) (silent : Bool)
  | notFound
  | methodNotAllowed
deriving DecidableEq, Repr

/-- `route` (line 414): two nonempty path segments starting `telegramUpdate`
or three starting `github` dispatch to the webhooks (POST only — the method is
checked before the first segment); everything else is 404.  The source's
`parts.length === 2` / `=== 3` checks with `parts[0]` reads are rendered as
the equivalent list patterns. -/
def route (method : String) (url : String) : RouteResult :=
  match routeParts url with
  | [p0, p1] =>
    if method ≠ "POST" then .methodNotAllowed
    else if p0 = "telegramUpdate".data then .telegramRoute ⟨p1⟩
    else .notFound
  | [p0, p1, p2] =>
    if method ≠ "POST" then .methodNotAllowed
    else if p0 = "github".data then .githubRoute ⟨p1⟩ ⟨p2⟩ (queryHasSilent url)
    else .notFound
  | _ => .notFound

/-- Whether a pathname has one of the two routable shapes
`/telegramUpdate/<secret>` or `/github/<chatID>/<token>`. -/
def matchesShape (url : String) : Bool :=
  match routeParts url with
  | [p0, _] => p0 == "telegramUpdate".data
  | [p0, _, _] => p0 == "github".data
  | _ => false

/-- `serveGitHubWebhook` (line 347): the chat identifier is
`parseInt(parts[0], 10)` of the second path segment; the token is the third
segment verbatim. -/
def serveGitHubWebhook (bot : GitHubBot) (chatIDPart chatToken : String)
    (silent : Bool) (event : String) (data : GitHubPayload) :
    List OutCall × Except String Unit :=
  githubEvent bot (jsParseInt chatIDPart) chatToken ⟨silent⟩ event data

/-- The error-to-status mapping of `main` (line 455): a thrown message
starting with `invalid` is a 400, any other failure is a 500, success is a
200 (with or without an inline reply body). -/
def httpStatusGH (r : List OutCall × Except String Unit) : Nat :=
  match r.2 with
  | .ok _ => 200
  | .error m => if startsWithList "invalid".data m.data then 400 else 500

/-- The error-to-status mapping of `main` for the Telegram webhook. -/
def httpStatusTG (r : List OutCall × Except String (Option InlineReply)) : Nat :=
  match r.2 with
  | .ok _ => 200
  | .error m => if startsWithList "invalid".data m.data then 400 else 500

/-! ## Spec-side definition for the refinement claim about `safeHMAC` -/

/-- Modelled from the spec's words (§4.1 of the design note): the URL-safe
mapping replaces only the *first* occurrence of `+` by `-`, only the first
`/` by `_`, deletes only the first `=`, and leaves every later occurrence of
these characters unchanged.  The three booleans record which first occurrence
has already been seen in a single left-to-right pass. -/
def specFirstOnly : Bool → Bool → Bool → List Char → List Char
  | _, _, _, [] => []
  | p, s, e, a :: as =>
    if a == '+' && !p then '-' :: specFirstOnly true s e as
    else if a == '/' && !s then '_' :: specFirstOnly p true e as
    else if a == '=' && !e then specFirstOnly p s true as
    else a :: specFirstOnly p s e as

/-- The composite of the pending single-replacement passes of `urlSafeB64`:
flag `true` means the corresponding pass has already consumed its first
occurrence (so that pass is the identity from here on).  `urlSafeB64` itself
is the composite with no pass yet done. -/
def urlSafeComp (p s e : Bool) (b : List Char) : List Char :=
  let b1 := if p then b else replaceFirstChar '+' '-' b
  let b2 := if s then b1 else replaceFirstChar '/' '_' b1
  if e then b2 else removeFirstChar '=' b2

/-! ## Concrete fixtures used by witnesses and counterexamples -/

/-- A concrete bot instance with a fixed raw base64 hash output exercising
all three special characters. -/
def testBot : GitHubBot := ⟨fun _ => "AB+C/D+E=F=", "tsec", "https://base"⟩

/-- A concrete GitHub user. -/
def sampleUser : GitHubUser := ⟨"alice", "https://gh/a.png", "https://gh/alice"⟩

/-- A concrete GitHub repository. -/
def sampleRepo : GitHubRepository :=
  ⟨"r", "alice/r", false, sampleUser, "https://gh/alice/r",
    "https://gh/alice/r/branches\x7b/branch\x7d", "https://api/r"⟩

/-- A concrete commit author. -/
def sampleAuthor : GitHubCommitAuthor := ⟨"Alice", "a@b.c", "alice"⟩

/-- A concrete commit with an ordinary message. -/
def commitA : GitHubCommit :=
  ⟨"1234567890ab", "fix stuff", "t", "u", sampleAuthor, [], [], []⟩

/-- A concrete commit whose message is the string `force-`. -/
def commitForce : GitHubCommit :=
  ⟨"1234567890ab", "force-", "t", "u", sampleAuthor, [], [], []⟩

/-- A non-forced push payload with exactly one ordinary commit. -/
def pushOne : GitHubEventPush :=
  ⟨"refs/heads/main", sampleUser, sampleRepo, [commitA], "https://cmp", false⟩

/-- A forced push payload with exactly two commits. -/
def pushTwo : GitHubEventPush :=
  ⟨"refs/heads/main", sampleUser, sampleRepo, [commitA, commitA], "https://cmp", true⟩

/-- A non-forced single-commit push payload whose commit message contains
`force-`. -/
def pushForceText : GitHubEventPush :=
  ⟨"refs/heads/main", sampleUser, sampleRepo, [commitForce], "https://cmp", false⟩

/-- A concrete chat. -/
def chat7 : TelegramChat := ⟨7, "group"⟩

/-- A `/setup@bot` message with one command entity spanning the text. -/
def setupMsg : TelegramMessage :=
  ⟨30, 0, chat7, some "/setup@bot", some [⟨"bot_command", 0, 10⟩]⟩

/-- An update carrying only `setupMsg`. -/
def updSetup : TelegramUpdate := ⟨1, some setupMsg, none⟩

/-- The message a callback query is attached to. -/
def cbMsg : TelegramMessage := ⟨99, 0, ⟨5, "group"⟩, some "Steps", none⟩

/-- A callback query with the `updateMessageSetupAdvanced` action. -/
def cbQuery : TelegramCallbackQuery := ⟨11, some cbMsg, some "updateMessageSetupAdvanced"⟩

/-- An update carrying only `cbQuery`. -/
def updCallback : TelegramUpdate := ⟨2, none, some cbQuery⟩

/-- An update whose callback query carries an empty-string data payload. -/
def updCallbackEmptyData : TelegramUpdate := ⟨3, none, some ⟨12, some cbMsg, some ""⟩⟩

/-- A message carrying one entity but no text field. -/
def noTextMsg : TelegramMessage :=
  ⟨40, 0, chat7, none, some [⟨"bot_command", 0, 6⟩]⟩

/-- An update carrying only `noTextMsg`. -/
def updNoText : TelegramUpdate := ⟨4, some noTextMsg, none⟩

/-- A message with text but no entities. -/
def noEntMsg : TelegramMessage := ⟨41, 0, chat7, some "hello", none⟩

/-- An update carrying only `noEntMsg`. -/
def updNoEntities : TelegramUpdate := ⟨5, some noEntMsg, none⟩

/-- An update carrying both a message and a callback query. -/
def updBoth : TelegramUpdate := ⟨6, some noEntMsg, some cbQuery⟩

/-! ## Helper lemmas about the string primitives -/

theorem strData_append (s t : String) : (s ++ t).data = s.data ++ t.data := by
  cases s; cases t; rfl

theorem startsWith_self_append (n y : List Char) :
    startsWithList n (n ++ y) = true := by
  induction n with
  | nil => rfl
  | cons a n ih => simp [startsWithList, ih]

theorem startsWith_append_both (a b t : List Char) :
    startsWithList (a ++ b) (a ++ t) = startsWithList b t := by
  induction a with
  | nil => rfl
  | cons c a ih => simp [startsWithList, ih]

theorem hasSub_of_startsWith {n l : List Char}
    (h : startsWithList n l = true) : hasSubList n l = true := by
  cases l with
  | nil =>
    cases n with
    | nil => rfl
    | cons c cs => simp [startsWithList] at h
  | cons a t => simp [hasSubList, h]

theorem hasSub_cons_of {n l : List Char} (a : Char)
    (h : hasSubList n l = true) : hasSubList n (a :: l) = true := by
  simp [hasSubList, h]

theorem hasSub_append_left {n l : List Char} (x : List Char)
    (h : hasSubList n l = true) : hasSubList n (x ++ l) = true := by
  induction x with
  | nil => exact h
  | cons a x ih => exact hasSub_cons_of a ih

theorem hasSub_middle (x y n : List Char) :
    hasSubList n (x ++ (n ++ y)) = true :=
  hasSub_append_left x (hasSub_of_startsWith (startsWith_self_append n y))


theorem jsSlice_zero_length (l : List Char) :
    jsSlice l 0 ((l.length : Nat) : Int) = l := by
  cases l with
  | nil => rfl
  | cons a as =>
    simp only [jsSlice]
    have h1 : ¬ ((0:Int) < 0) := by omega
    have h2 : ¬ (((a :: as).length : Int) < 0) := by omega
    rw [if_neg h1, if_neg h2]
    have hmin1 : min (0:Int) (((a :: as).length : Nat) : Int) = 0 := by
      simp [List.length_cons]
      omega
    have hmin2 : min (((a :: as).length : Nat) : Int) (((a :: as).length : Nat) : Int)
        = (((a :: as).length : Nat) : Int) := min_self _
    rw [hmin1, hmin2]
    have hpos : (0:Int) < (((a :: as).length : Nat) : Int) := by
      simp [List.length_cons]
    rw [if_pos hpos]
    simp

theorem urlSafeComp_plus (s e : Bool) (as : List Char) :
    urlSafeComp false s e ('+' :: as) = '-' :: urlSafeComp true s e as := by
  cases s <;> cases e <;> rfl

theorem urlSafeComp_plus_seen (s e : Bool) (as : List Char) :
    urlSafeComp true s e ('+' :: as) = '+' :: urlSafeComp true s e as := by
  cases s <;> cases e <;> rfl

theorem urlSafeComp_slash (p e : Bool) (as : List Char) :
    urlSafeComp p false e ('/' :: as) = '_' :: urlSafeComp p true e as := by
  cases p <;> cases e <;> rfl

theorem urlSafeComp_slash_seen (p e : Bool) (as : List Char) :
    urlSafeComp p true e ('/' :: as) = '/' :: urlSafeComp p true e as := by
  cases p <;> cases e <;> rfl

theorem urlSafeComp_pad (p s : Bool) (as : List Char) :
    urlSafeComp p s false ('=' :: as) = urlSafeComp p s true as := by
  cases p <;> cases s <;> rfl

theorem urlSafeComp_pad_seen (p s : Bool) (as : List Char) :
    urlSafeComp p s true ('=' :: as) = '=' :: urlSafeComp p s true as := by
  cases p <;> cases s <;> rfl

theorem urlSafeComp_other (a : Char) (h1 : a ≠ '+') (h2 : a ≠ '/')
    (h3 : a ≠ '=') (p s e : Bool) (as : List Char) :
    urlSafeComp p s e (a :: as) = a :: urlSafeComp p s e as := by
  have e1 : (a == '+') = false := by simp [h1]
  have e2 : (a == '/') = false := by simp [h2]
  have e3 : (a == '=') = false := by simp [h3]
  cases p <;> cases s <;> cases e <;>
    simp [urlSafeComp, replaceFirstChar, removeFirstChar, e1, e2, e3]

theorem urlSafeComp_eq_specFirstOnly (b : List Char) :
    ∀ p s e : Bool, urlSafeComp p s e b = specFirstOnly p s e b := by
  induction b with
  | nil => intro p s e; cases p <;> cases s <;> cases e <;> rfl
  | cons a as ih =>
    intro p s e
    by_cases h1 : a = '+'
    · subst h1
      cases p
      · rw [urlSafeComp_plus, ih]; rfl
      · rw [urlSafeComp_plus_seen, ih]; rfl
    · by_cases h2 : a = '/'
      · subst h2
        cases s
        · rw [urlSafeComp_slash, ih]; rfl
        · rw [urlSafeComp_slash_seen, ih]; rfl
      · by_cases h3 : a = '='
        · subst h3
          cases e
          · rw [urlSafeComp_pad, ih]; rfl
          · rw [urlSafeComp_pad_seen, ih]; rfl
        · rw [urlSafeComp_other a h1 h2 h3, ih]
          have e1 : (a == '+') = false := by simp [h1]
          have e2 : (a == '/') = false := by simp [h2]
          have e3 : (a == '=') = false := by simp [h3]
          simp [specFirstOnly, e1, e2, e3]

/-! ## The claims -/

/-- Claim C1: for every integer `chatID` and string `token`,
`verifyWebhookURL` returns `true` iff `token` equals the token produced by
`safeHMAC` over the decimal string of `chatID`; in particular the signed
token itself verifies. -/
theorem verify_iff_eq_sign (bot : GitHubBot) (chatID : Int) (token : String) :
    (verifyWebhookURL bot (some chatID) token = true
      ↔ token = safeHMAC bot (jsNumToString (some chatID)))
    ∧ verifyWebhookURL bot (some chatID)
        (safeHMAC bot (jsNumToString (some chatID))) = true := by
  constructor
  · simp only [verifyWebhookURL, beq_iff_eq]
    exact eq_comm
  · simp [verifyWebhookURL]

/-- Claim C2: the token produced by `safeHMAC` is the raw base64 hash output
in which only the first occurrence of `+` is replaced by `-`, only the first
`/` by `_`, and only the first `=` is removed, any later occurrence of these
characters remaining unchanged (`specFirstOnly` is that single-pass spec-side
description). -/
theorem safeHMAC_replaces_first_occurrences_only (bot : GitHubBot) (chatID : Int) :
    (safeHMAC bot (toString chatID)).data
      = specFirstOnly false false false (bot.hmacB64 (toString chatID)).data := by
  rw [show (safeHMAC bot (toString chatID)).data
      = urlSafeComp false false false (bot.hmacB64 (toString chatID)).data from rfl]
  exact urlSafeComp_eq_specFirstOnly _ false false false

/-- Claim C4: when the presented token differs from the signed token,
`githubEvent` fails with the error `invalid: chatToken` (whose message starts
with `invalid`, so `main` maps it to HTTP 400) and issues zero outbound
calls, whatever the event type and payload are: binding verification happens
before formatting and before any outbound call. -/
theorem githubEvent_invalid_token (bot : GitHubBot) (chatID : JsNum)
    (chatToken : String) (params : Params) (event : String) (data : GitHubPayload)
    (h : chatToken ≠ safeHMAC bot (jsNumToString chatID)) :
    githubEvent bot chatID chatToken params event data
      = ([], .error "invalid: chatToken")
    ∧ startsWithList "invalid".data "invalid: chatToken".data = true
    ∧ httpStatusGH (githubEvent bot chatID chatToken params event data) = 400 := by
  have hv : verifyWebhookURL bot chatID chatToken = false := by
    simp only [verifyWebhookURL, beq_eq_false_iff_ne]
    exact fun he => h he.symm
  have h1 : githubEvent bot chatID chatToken params event data
      = ([], .error "invalid: chatToken") := by
    simp [githubEvent, hv]
  refine ⟨h1, by decide, ?_⟩
  rw [h1]
  decide

/-- Witness for C4 at a concrete bot and token. -/
theorem githubEvent_invalid_token_witness :
    "bad" ≠ safeHMAC testBot (jsNumToString (some 42))
    ∧ (githubEvent testBot (some 42) "bad" ⟨false⟩ "push" (.push pushOne)
        = ([], .error "invalid: chatToken")
      ∧ startsWithList "invalid".data "invalid: chatToken".data = true
      ∧ httpStatusGH (githubEvent testBot (some 42) "bad" ⟨false⟩ "push" (.push pushOne)) = 400) :=
  ⟨by decide,
   githubEvent_invalid_token testBot (some 42) "bad" ⟨false⟩ "push" (.push pushOne) (by decide)⟩

/-- Claim C10: the chat identifier of `POST /github/<s>/<t>` is
`parseInt(s, 10)`, so a non-numeric suffix of the path segment is ignored —
a request with segment `42abc` behaves identically to one with `42` — and a
segment with no leading digits yields `NaN`. -/
theorem serveGitHubWebhook_parseInt_prefix (bot : GitHubBot) (chatToken : String)
    (silent : Bool) (event : String) (data : GitHubPayload) :
    serveGitHubWebhook bot "42abc" chatToken silent event data
      = serveGitHubWebhook bot "42" chatToken silent event data
    ∧ jsParseInt "42abc" = some 42 ∧ jsParseInt "abc" = none := by
  refine ⟨?_, by decide, by decide⟩
  rw [show serveGitHubWebhook bot "42abc" chatToken silent event data
      = githubEvent bot (jsParseInt "42abc") chatToken ⟨silent⟩ event data from rfl]
  rw [show jsParseInt "42abc" = jsParseInt "42" from by decide]
  rfl

/-- Structural decomposition of the push formatter's output for a payload
with exactly one commit that was not force-pushed. -/
theorem formatPushL_decomp_one (p : GitHubEventPush)
    (h1 : p.commits.length = 1) (hf : p.forced = false) :
    formatPushL p
      = "[".data ++ (p.sender.login.data ++ ("](".data ++ (p.sender.html_url.data ++ ("): \n[".data ++ ("1 new commit".data ++ ("](".data ++ (p.compare.data ++ (") pushed to".data ++ (" [`".data ++ (replaceFirstSub "refs/heads/".data [] p.ref.data ++ ("`](".data ++ (replaceFirstSub "\x7b/branch\x7d".data ("/".data ++ replaceFirstSub "refs/heads/".data [] p.ref.data) p.repository.branches_url.data ++ (")\n".data ++ (List.intercalate "\n".data (p.commits.map (fun commit => "`".data ++ jsSlice commit.id.data 0 7 ++ "` ".data ++ commit.message.data ++ " - ".data ++ commit.author.username.data)) ++ ("\n[_".data ++ (p.repository.full_name.data ++ ("_](".data ++ (p.repository.html_url.data ++ (")".data))))))))))))))))))) := by
  have ht : (toString (1 : Nat)).data = ['1'] := by decide
  simp [formatPushL, h1, hf, ht, List.append_assoc]

/-- Structural decomposition of the push formatter's output for a payload
with exactly two commits that were force-pushed. -/
theorem formatPushL_decomp_two (p : GitHubEventPush)
    (h2 : p.commits.length = 2) (hf : p.forced = true) :
    formatPushL p
      = "[".data ++ (p.sender.login.data ++ ("](".data ++ (p.sender.html_url.data ++ ("): \n[".data ++ ("2 new commits".data ++ ("](".data ++ (p.compare.data ++ (") ".data ++ ("force-".data ++ ("pushed to".data ++ (" [`".data ++ (replaceFirstSub "refs/heads/".data [] p.ref.data ++ ("`](".data ++ (replaceFirstSub "\x7b/branch\x7d".data ("/".data ++ replaceFirstSub "refs/heads/".data [] p.ref.data) p.repository.branches_url.data ++ (")\n".data ++ (List.intercalate "\n".data (p.commits.map (fun commit => "`".data ++ jsSlice commit.id.data 0 7 ++ "` ".data ++ commit.message.data ++ " - ".data ++ commit.author.username.data)) ++ ("\n[_".data ++ (p.repository.full_name.data ++ ("_](".data ++ (p.repository.html_url.data ++ (")".data))))))))))))))))))))) := by
  have ht : (toString (2 : Nat)).data = ['2'] := by decide
  simp [formatPushL, h2, hf, ht, List.append_assoc]

/-- Claim C3 (amended): with exactly 1 commit and `forced == false` the push
formatter's text contains `1 new commit` (singular) and contains
`) pushed to` right after the compare link — the formatter inserts no
`force-` before `pushed` — and with 2 commits and `forced == true` it
contains `2 new commits` and contains `force-`.  (The unqualified
"does not contain `force-`" of the original claim is refuted by
`formatPush_force_counterexample`: payload fields can contain `force-`.) -/
theorem formatPush_commit_count_and_force (p q : GitHubEventPush)
    (h1 : p.commits.length = 1) (hf1 : p.forced = false)
    (h2 : q.commits.length = 2) (hf2 : q.forced = true) :
    strContains ⟨formatPushL p⟩ "1 new commit" = true
    ∧ strContains ⟨formatPushL p⟩ ") pushed to" = true
    ∧ strContains ⟨formatPushL q⟩ "2 new commits" = true
    ∧ strContains ⟨formatPushL q⟩ "force-" = true := by
  refine ⟨?_, ?_, ?_, ?_⟩
  · show hasSubList "1 new commit".data (formatPushL p) = true
    rw [formatPushL_decomp_one p h1 hf1]
    apply hasSub_append_left
    apply hasSub_append_left
    apply hasSub_append_left
    apply hasSub_append_left
    apply hasSub_append_left
    exact hasSub_of_startsWith (startsWith_self_append _ _)
  · show hasSubList ") pushed to".data (formatPushL p) = true
    rw [formatPushL_decomp_one p h1 hf1]
    apply hasSub_append_left
    apply hasSub_append_left
    apply hasSub_append_left
    apply hasSub_append_left
    apply hasSub_append_left
    apply hasSub_append_left
    apply hasSub_append_left
    apply hasSub_append_left
    exact hasSub_of_startsWith (startsWith_self_append _ _)
  · show hasSubList "2 new commits".data (formatPushL q) = true
    rw [formatPushL_decomp_two q h2 hf2]
    apply hasSub_append_left
    apply hasSub_append_left
    apply hasSub_append_left
    apply hasSub_append_left
    apply hasSub_append_left
    exact hasSub_of_startsWith (startsWith_self_append _ _)
  · show hasSubList "force-".data (formatPushL q) = true
    rw [formatPushL_decomp_two q h2 hf2]
    apply hasSub_append_left
    apply hasSub_append_left
    apply hasSub_append_left
    apply hasSub_append_left
    apply hasSub_append_left
    apply hasSub_append_left
    apply hasSub_append_left
    apply hasSub_append_left
    apply hasSub_append_left
    exact hasSub_of_startsWith (startsWith_self_append _ _)

/-- Counterexample to claim C3 as stated: `pushForceText` has exactly one
commit and `forced == false`, yet the formatted text does contain `force-`,
because the commit message is the string `force-`. -/
theorem formatPush_force_counterexample :
    pushForceText.commits.length = 1 ∧ pushForceText.forced = false
    ∧ strContains ⟨formatPushL pushForceText⟩ "force-" = true := by
  refine ⟨rfl, rfl, ?_⟩
  decide

/-- Witness for C3 (amended) at concrete payloads. -/
theorem formatPush_commit_count_and_force_witness :
    pushOne.commits.length = 1 ∧ pushOne.forced = false
    ∧ pushTwo.commits.length = 2 ∧ pushTwo.forced = true
    ∧ (strContains ⟨formatPushL pushOne⟩ "1 new commit" = true
       ∧ strContains ⟨formatPushL pushOne⟩ ") pushed to" = true
       ∧ strContains ⟨formatPushL pushTwo⟩ "2 new commits" = true
       ∧ strContains ⟨formatPushL pushTwo⟩ "force-" = true) :=
  ⟨rfl, rfl, rfl, rfl,
   formatPush_commit_count_and_force pushOne pushTwo rfl rfl rfl rfl⟩


theorem handleMessage_shape (bot : GitHubBot) (m : TelegramMessage) :
    (handleMessage bot m).1 = []
    ∧ ∀ r, (handleMessage bot m).2 = .ok (some r) → r ≠ .answerCallbackQuery := by
  unfold handleMessage
  rcases m.entities with _ | ⟨_ | ⟨e0, es⟩⟩
  · exact ⟨rfl, by intro r h; simp at h⟩
  · exact ⟨rfl, by intro r h; simp at h⟩
  · rcases m.text with _ | t
    · exact ⟨rfl, by intro r h; simp at h⟩
    · dsimp only
      split
      · refine ⟨rfl, ?_⟩
        intro r h
        simp only [Except.ok.injEq, Option.some.injEq] at h
        subst h
        exact fun hcon => InlineReply.noConfusion hcon
      · refine ⟨rfl, ?_⟩
        intro r h
        simp only [Except.ok.injEq, Option.some.injEq] at h
        subst h
        exact fun hcon => InlineReply.noConfusion hcon

/-- Claim C9: when an update carries both a message and a callback query,
`telegramUpdate` processes only the message branch: its result is the same
as for the update with the callback query removed, it issues no outbound
call (in particular no edit call), and it never returns the
`answerCallbackQuery` acknowledgment. -/
theorem telegramUpdate_message_priority (bot : GitHubBot) (secret : String)
    (u : TelegramUpdate) (m : TelegramMessage) (q : TelegramCallbackQuery)
    (hm : u.message = some m) (hq : u.callback_query = some q) :
    telegramUpdate bot secret u
      = telegramUpdate bot secret ⟨u.update_id, u.message, none⟩
    ∧ (telegramUpdate bot secret u).1 = []
    ∧ (∀ r, (telegramUpdate bot secret u).2 = .ok (some r)
        → r ≠ .answerCallbackQuery) := by
  refine ⟨by simp [telegramUpdate, hm], ?_, ?_⟩
  · by_cases hs : secret = bot.telegramSecret
    · have hb : telegramUpdate bot secret u = handleMessage bot m := by
        simp [telegramUpdate, hs, hm]
      rw [hb]
      exact (handleMessage_shape bot m).1
    · simp [telegramUpdate, hs]
  · by_cases hs : secret = bot.telegramSecret
    · have hb : telegramUpdate bot secret u = handleMessage bot m := by
        simp [telegramUpdate, hs, hm]
      rw [hb]
      exact (handleMessage_shape bot m).2
    · intro r h
      simp [telegramUpdate, hs] at h

/-- Witness for C9. -/
theorem telegramUpdate_message_priority_witness :
    updBoth.message = some noEntMsg ∧ updBoth.callback_query = some cbQuery
    ∧ (telegramUpdate testBot "tsec" updBoth
        = telegramUpdate testBot "tsec" ⟨updBoth.update_id, updBoth.message, none⟩
      ∧ (telegramUpdate testBot "tsec" updBoth).1 = []
      ∧ (∀ r, (telegramUpdate testBot "tsec" updBoth).2 = .ok (some r)
          → r ≠ .answerCallbackQuery)) :=
  ⟨rfl, rfl, telegramUpdate_message_priority testBot "tsec" updBoth noEntMsg cbQuery rfl rfl⟩

theorem takeWhile_setup_prefix (xs : List Char) :
    ("/setup@".data ++ xs).takeWhile (fun ch => ch != '@') = "/setup".data := rfl

/-- Claim C6: an authenticated update whose message text is
`/setup@<botname>` with one command entity spanning it returns the inline
setup reply: a `sendMessage` to that chat whose text contains the
Signer-derived webhook URL `<baseURL>/github/<chatID>/<sign(chatID)>`
(whose token verifies) and whose inline keyboard is the single button with
callback payload `updateMessageSetupAdvanced`. -/
theorem telegramUpdate_setup_command (bot : GitHubBot) (u : TelegramUpdate)
    (m : TelegramMessage) (et botname : String)
    (hm : u.message = some m)
    (htxt : m.text = some ("/setup@" ++ botname))
    (hent : m.entities = some [⟨et, 0, (("/setup@" ++ botname).length : Int)⟩]) :
    telegramUpdate bot bot.telegramSecret u
      = ([], .ok (some (.sendMessage m.chat.id (some "Markdown")
          ⟨formatSetupMessageTextL bot m.chat.id⟩ (some true)
          (some [[⟨"Advanced Setup", some "updateMessageSetupAdvanced"⟩]]))))
    ∧ strContains ⟨formatSetupMessageTextL bot m.chat.id⟩
        (generateWebhookURL bot m.chat.id) = true
    ∧ verifyWebhookURL bot (some m.chat.id)
        (safeHMAC bot (toString m.chat.id)) = true := by
  have hslice : jsSlice ("/setup@" ++ botname).data 0
      (0 + (("/setup@" ++ botname).length : Int)) = ("/setup@" ++ botname).data := by
    rw [zero_add]
    exact jsSlice_zero_length _
  have hcmd : (("/setup@" ++ botname).data).takeWhile (fun ch => ch != '@')
      = "/setup".data := by
    rw [strData_append]
    exact takeWhile_setup_prefix _
  refine ⟨?_, ?_, ?_⟩
  · have hb : telegramUpdate bot bot.telegramSecret u = handleMessage bot m := by
      simp [telegramUpdate, hm]
    rw [hb]
    unfold handleMessage
    rw [hent, htxt]
    dsimp only
    rw [hslice, hcmd, if_pos rfl]
  · show hasSubList (generateWebhookURL bot m.chat.id).data
      (formatSetupMessageTextL bot m.chat.id) = true
    rw [show (generateWebhookURL bot m.chat.id).data
        = generateWebhookURLL bot m.chat.id from rfl]
    rw [show formatSetupMessageTextL bot m.chat.id
        = "*Steps*\n\n1. Open \"Settings\" → \"Webhooks\" → \"Add Webhook\" in your GitHub repository.\n2. Paste the following URL as \"Payload URL\":\n".data
          ++ (generateWebhookURLL bot m.chat.id
          ++ "\n3. Under \"Content-Type\", choose \"application/json\"\n\nPress \"Add webhook\" and you're done. You can optionally choose specific events to send a message for.".data)
        from by rw [formatSetupMessageTextL, List.append_assoc]]
    exact hasSub_middle _ _ _
  · simp [verifyWebhookURL, jsNumToString]

/-- Witness for C6 at a concrete update. -/
theorem telegramUpdate_setup_command_witness :
    updSetup.message = some setupMsg
    ∧ setupMsg.text = some ("/setup@" ++ "bot")
    ∧ setupMsg.entities = some [⟨"bot_command", 0, (("/setup@" ++ "bot").length : Int)⟩]
    ∧ (telegramUpdate testBot testBot.telegramSecret updSetup
        = ([], .ok (some (.sendMessage setupMsg.chat.id (some "Markdown")
            ⟨formatSetupMessageTextL testBot setupMsg.chat.id⟩ (some true)
            (some [[⟨"Advanced Setup", some "updateMessageSetupAdvanced"⟩]]))))
      ∧ strContains ⟨formatSetupMessageTextL testBot setupMsg.chat.id⟩
          (generateWebhookURL testBot setupMsg.chat.id) = true
      ∧ verifyWebhookURL testBot (some setupMsg.chat.id)
          (safeHMAC testBot (toString setupMsg.chat.id)) = true) :=
  ⟨rfl, by decide, by decide,
   telegramUpdate_setup_command testBot updSetup setupMsg "bot_command" "bot"
     rfl (by decide) (by decide)⟩

/-- Claim C7 (amended): a callback-query update (no message present) with an
attached message and nonempty data performs exactly one `editMessageText`
call targeting that message's chat and message id when the data is
`updateMessageSetupAdvanced`, and zero calls otherwise; in both cases it
returns the `answerCallbackQuery` acknowledgment.  (Empty-string data is
falsy in JavaScript and is silently ignored instead, refuting the original
"any other data value" wording — see the counterexample.) -/
theorem telegramUpdate_callback_action (bot : GitHubBot) (u : TelegramUpdate)
    (cq : TelegramCallbackQuery) (m : TelegramMessage) (d : String)
    (hm : u.message = none) (hcq : u.callback_query = some cq)
    (hqm : cq.message = some m) (hqd : cq.data = some d) (hne : d ≠ "") :
    (d = "updateMessageSetupAdvanced" →
      telegramUpdate bot bot.telegramSecret u
        = ([.editMessageText m.chat.id m.message_id (some "Markdown")
            ⟨formatSetupAdvancedMessageTextL bot m.chat.id⟩ (some true)],
           .ok (some .answerCallbackQuery)))
    ∧ (d ≠ "updateMessageSetupAdvanced" →
      telegramUpdate bot bot.telegramSecret u
        = ([], .ok (some .answerCallbackQuery))) := by
  have hb : telegramUpdate bot bot.telegramSecret u = handleCallbackQuery bot cq := by
    simp [telegramUpdate, hm, hcq]
  constructor <;> intro hd <;> rw [hb] <;>
    simp [handleCallbackQuery, hqm, hqd, hne, hd]

/-- Witness for C7 (amended) at a concrete update. -/
theorem telegramUpdate_callback_action_witness :
    updCallback.message = none
    ∧ updCallback.callback_query = some cbQuery
    ∧ cbQuery.message = some cbMsg
    ∧ cbQuery.data = some "updateMessageSetupAdvanced"
    ∧ "updateMessageSetupAdvanced" ≠ ""
    ∧ telegramUpdate testBot testBot.telegramSecret updCallback
        = ([.editMessageText cbMsg.chat.id cbMsg.message_id (some "Markdown")
            ⟨formatSetupAdvancedMessageTextL testBot cbMsg.chat.id⟩ (some true)],
           .ok (some .answerCallbackQuery)) :=
  ⟨rfl, rfl, rfl, rfl, by decide,
   (telegramUpdate_callback_action testBot updCallback cbQuery cbMsg
      "updateMessageSetupAdvanced" rfl rfl rfl rfl (by decide)).1 rfl⟩

/-- Counterexample to claim C7 as stated: a callback query carrying the data
value `""` (a "data value" other than `updateMessageSetupAdvanced`) is
silently ignored — no acknowledgment reply is returned — because empty
strings are falsy in JavaScript. -/
theorem telegramUpdate_callback_empty_counterexample :
    updCallbackEmptyData.callback_query = some ⟨12, some cbMsg, some ""⟩
    ∧ telegramUpdate testBot testBot.telegramSecret updCallbackEmptyData
        = ([], .ok none)
    ∧ (telegramUpdate testBot testBot.telegramSecret updCallbackEmptyData).2
        ≠ .ok (some InlineReply.answerCallbackQuery) := by
  refine ⟨rfl, rfl, ?_⟩
  rw [show (telegramUpdate testBot testBot.telegramSecret updCallbackEmptyData).2
      = .ok none from rfl]
  simp

/-- Claim C8 (amended): an authenticated update whose message has no
entities (absent or empty list) is logged and silently ignored — no reply,
no error, HTTP 200.  A message carrying an entity but no text field is NOT
silently ignored: reading `message.text.slice` throws a `TypeError`, which
`main` maps to HTTP 500 (see the counterexample refuting the original
claim). -/
theorem telegramUpdate_malformed_message (bot : GitHubBot) (u : TelegramUpdate)
    (m : TelegramMessage) (hm : u.message = some m) :
    ((m.entities = none ∨ m.entities = some []) →
      telegramUpdate bot bot.telegramSecret u = ([], .ok none)
      ∧ httpStatusTG (telegramUpdate bot bot.telegramSecret u) = 200)
    ∧ (∀ e es, m.entities = some (e :: es) → m.text = none →
      telegramUpdate bot bot.telegramSecret u
        = ([], .error "TypeError: Cannot read property 'slice' of undefined")
      ∧ httpStatusTG (telegramUpdate bot bot.telegramSecret u) = 500) := by
  have hb : telegramUpdate bot bot.telegramSecret u = handleMessage bot m := by
    simp [telegramUpdate, hm]
  constructor
  · intro he
    have hr : telegramUpdate bot bot.telegramSecret u = ([], .ok none) := by
      rw [hb]
      rcases he with h | h <;> simp [handleMessage, h]
    exact ⟨hr, by rw [hr]; rfl⟩
  · intro e es he ht
    have hr : telegramUpdate bot bot.telegramSecret u
        = ([], .error "TypeError: Cannot read property 'slice' of undefined") := by
      rw [hb]
      simp [handleMessage, he, ht]
    refine ⟨hr, ?_⟩
    rw [hr]
    decide

/-- Witness for C8 (amended) at a concrete update with no entities. -/
theorem telegramUpdate_malformed_message_witness :
    updNoEntities.message = some noEntMsg
    ∧ noEntMsg.entities = none
    ∧ (telegramUpdate testBot testBot.telegramSecret updNoEntities = ([], .ok none)
      ∧ httpStatusTG (telegramUpdate testBot testBot.telegramSecret updNoEntities) = 200) :=
  ⟨rfl, rfl,
   (telegramUpdate_malformed_message testBot updNoEntities noEntMsg rfl).1 (Or.inl rfl)⟩

/-- Counterexample to claim C8 as stated: the authenticated update
`updNoText`, whose message carries one entity but no text field, is not
silently ignored — `telegramUpdate` raises a `TypeError` and the server
responds 500, not 200. -/
theorem telegramUpdate_missing_text_counterexample :
    updNoText.message = some noTextMsg
    ∧ noTextMsg.entities = some [⟨"bot_command", 0, 6⟩]
    ∧ noTextMsg.text = none
    ∧ telegramUpdate testBot testBot.telegramSecret updNoText
        = ([], .error "TypeError: Cannot read property 'slice' of undefined")
    ∧ httpStatusTG (telegramUpdate testBot testBot.telegramSecret updNoText) = 500 := by
  exact ⟨rfl, rfl, rfl, rfl, by decide⟩

/-- Claim C5 (amended): a POST request whose path matches neither routable
shape gets 404, and so does a non-POST request whose path has neither 2 nor
3 nonempty segments; but a non-POST request whose path has 2 or 3 nonempty
segments gets 405 even when it matches neither shape, because `route` checks
the method before the first path segment (in particular a request matching a
shape with a non-POST method gets 405, as the original claim states).  The
original "any request matching neither shape gets 404" is refuted by
`route_wrong_method_counterexample`. -/
theorem route_dispatch (method url : String) :
    (method = "POST" → matchesShape url = false → route method url = .notFound)
    ∧ (method ≠ "POST" → (routeParts url).length ≠ 2 → (routeParts url).length ≠ 3
        → route method url = .notFound)
    ∧ (method ≠ "POST" → ((routeParts url).length = 2 ∨ (routeParts url).length = 3)
        → route method url = .methodNotAllowed)
    ∧ (matchesShape url = true → method ≠ "POST"
        → route method url = .methodNotAllowed) := by
  rcases hp : routeParts url with _ | ⟨p0, _ | ⟨p1, _ | ⟨p2, _ | ⟨p3, rest⟩⟩⟩⟩
  · exact ⟨fun _ _ => by simp [route, hp],
      fun _ _ _ => by simp [route, hp],
      fun _ h => by simp [hp] at h,
      fun h _ => by simp [matchesShape, hp] at h⟩
  · exact ⟨fun _ _ => by simp [route, hp],
      fun _ _ _ => by simp [route, hp],
      fun _ h => by simp [hp] at h,
      fun h _ => by simp [matchesShape, hp] at h⟩
  · refine ⟨?_, ?_, ?_, ?_⟩
    · intro hm hsh
      simp only [matchesShape, hp] at hsh
      rw [beq_eq_false_iff_ne] at hsh
      simp [route, hp, hm, hsh]
    · intro _ h2 _
      simp [hp] at h2
    · intro hm _
      simp [route, hp, hm]
    · intro _ hm
      simp [route, hp, hm]
  · refine ⟨?_, ?_, ?_, ?_⟩
    · intro hm hsh
      simp only [matchesShape, hp] at hsh
      rw [beq_eq_false_iff_ne] at hsh
      simp [route, hp, hm, hsh]
    · intro _ _ h3
      simp [hp] at h3
    · intro hm _
      simp [route, hp, hm]
    · intro _ hm
      simp [route, hp, hm]
  · exact ⟨fun _ _ => by simp [route, hp],
      fun _ _ _ => by simp [route, hp],
      fun _ h => by simp [hp] at h,
      fun h _ => by simp [matchesShape, hp] at h⟩

/-- Counterexample to claim C5 as stated: `GET /a/b` matches neither shape,
yet the router answers 405 (method not allowed), not 404, because the method
check precedes the first-segment check. -/
theorem route_wrong_method_counterexample :
    matchesShape "/a/b" = false
    ∧ route "GET" "/a/b" = RouteResult.methodNotAllowed
    ∧ route "GET" "/a/b" ≠ RouteResult.notFound := by
  exact ⟨by decide, by decide, by decide⟩

/-- Witness for C5 (amended) at concrete requests. -/
theorem route_dispatch_witness :
    matchesShape "/w/x" = false
    ∧ route "POST" "/w/x" = RouteResult.notFound
    ∧ ("GET" ≠ "POST" ∧ (routeParts "/w/x").length = 2
        ∧ route "GET" "/w/x" = RouteResult.methodNotAllowed)
    ∧ (matchesShape "/telegramUpdate/s" = true
        ∧ route "GET" "/telegramUpdate/s" = RouteResult.methodNotAllowed) :=
  ⟨by decide,
   (route_dispatch "POST" "/w/x").1 rfl (by decide),
   ⟨by decide, by decide,
    (route_dispatch "GET" "/w/x").2.2.1 (by decide) (Or.inl (by decide))⟩,
   ⟨by decide,
    (route_dispatch "GET" "/telegramUpdate/s").2.2.2 (by decide) (by decide)⟩⟩
